import Mathlib

/-!
Verification development for the open-bamz code-editor plugin.

The embedding models, from the JavaScript source:
  - the path guard of the file API (REGEXP_CHECK_PATH, getSecurePath and the
    per-route path resolution);
  - the versioned store helpers (initGitIfNotExists, commitAllChanges,
    getFileContentDiff, createBranchWithWorktree);
  - the SSH sandbox manager (execSSH, createUser, addSSHKey, testConnection);
  - the save and delete routes of the file API together with the change
    listener notification (onFileChange).

Absolute filesystem paths are modelled as lists of segments from the root.
Machine-level details (buffers, timestamps, process identity) carry no weight
in the proved properties and are left out; where a route step is skipped the
doc comment of the embedding says so.
-/

namespace OpenBamz

/-- Decidable equality for `Except`, used to evaluate the embedded fallible
operations on concrete inputs. -/
instance instDecEqExcept {ε α : Type} [DecidableEq ε] [DecidableEq α] :
    DecidableEq (Except ε α) := fun a b =>
  match a, b with
  | Except.ok x, Except.ok y =>
      if h : x = y then isTrue (by rw [h]) else isFalse (by simp [h])
  | Except.error x, Except.error y =>
      if h : x = y then isTrue (by rw [h]) else isFalse (by simp [h])
  | Except.ok _, Except.error _ => isFalse (by simp)
  | Except.error _, Except.ok _ => isFalse (by simp)

/-! ### Path guard (file-api: REGEXP_CHECK_PATH, getSecurePath) -/

/-- Splitting a character list on the slash character, the worker behind the
model of `path.join`: each slash ends the current segment. -/
def splitSlashChars : List Char → List Char → List String
  | [], cur => [String.mk cur.reverse]
  | '/' :: rest, cur => String.mk cur.reverse :: splitSlashChars rest []
  | c :: rest, cur => splitSlashChars rest (c :: cur)

/-- Splitting a string on `/`, as `String.splitOn "/"` does. -/
def splitSlash (s : String) : List String :=
  splitSlashChars s.toList []

/-- Removal of leading and trailing whitespace from a character list. -/
def trimChars (l : List Char) : List Char :=
  ((l.dropWhile Char.isWhitespace).reverse.dropWhile Char.isWhitespace).reverse

/-- JavaScript's `String.prototype.trim`: strip whitespace at both ends. -/
def jsTrim (s : String) : String :=
  String.mk (trimChars s.toList)

/-- One character class of `REGEXP_CHECK_PATH = /^[\p{L}\d\s\-_/.+]+$/u`:
letters, digits, whitespace, hyphen, underscore, slash, dot, plus.  The
model restricts the letter and whitespace classes to their ASCII parts
(`Char.isAlpha`, `Char.isWhitespace`); every string the model accepts is
also accepted by the JavaScript regular expression. -/
def isPathChar (c : Char) : Bool :=
  c.isAlpha || c.isDigit || c.isWhitespace ||
    c = '-' || c = '_' || c = '/' || c = '.' || c = '+'

/-- The test `p.match(REGEXP_CHECK_PATH)`: the string is non-empty and every
character belongs to the allow-list class. -/
def matchesCheckPath (p : String) : Bool :=
  p.length > 0 && p.toList.all isPathChar

/-- The test `dir.match(/\.\./)` of `getSecurePath`: the string holds two
consecutive dots somewhere. -/
def containsDotDot (s : String) : Bool :=
  hasDotDotAux s.toList
where
  hasDotDotAux : List Char → Bool
    | '.' :: '.' :: _ => true
    | _ :: rest => hasDotDotAux rest
    | [] => false

/-- An absolute filesystem path as the list of its segments from the root. -/
abbrev AbsPath := List String

/-- One step of the segment normalisation performed by Node's `path.join`:
empty and `.` segments disappear, `..` removes the previous segment (and is
dropped at the root), any other segment is appended. -/
def normStep (acc : List String) (seg : String) : List String :=
  if seg = "" || seg = "." then acc
  else if seg = ".." then acc.dropLast
  else acc ++ [seg]

/-- Node's `path.join(base, p)` for an absolute `base`: split `p` on slashes
and normalise the segments onto `base`. -/
def joinSegs (base : AbsPath) (p : String) : AbsPath :=
  (splitSlash p).foldl normStep base

/-- The fixed directory names of file-api.mjs. -/
def DEFAULT_DIR : String := "public"

/-- The branches directory name of file-api.mjs. -/
def BRANCHES_DIR : String := "branches"

/-- The root of one tenant under the data directory:
`path.join(process.env.DATA_DIR, "apps", appName)`. -/
def tenantRoot (dataDir : AbsPath) (appName : String) : AbsPath :=
  dataDir ++ ["apps", appName]

/-- `getSecurePath(dir, appName)` of file-api.mjs: reject a `dir` holding
`..`, then resolve either under the workspace root (for the default or empty
selector) or under the branches directory. -/
def getSecurePath (dataDir : AbsPath) (dir : String) (appName : String) :
    Except String AbsPath :=
  if containsDotDot dir then Except.error "Forbidden path"
  else
    let basePath := tenantRoot dataDir appName
    if dir = DEFAULT_DIR || dir = "" then Except.ok (joinSegs basePath dir)
    else Except.ok (joinSegs basePath (BRANCHES_DIR ++ "/" ++ dir))

/-- The path resolution every file route performs on a caller-supplied
relative path: check it against `REGEXP_CHECK_PATH` (a failing match answers
`Forbidden path`), resolve the directory with `getSecurePath`, then
`path.join` the relative path under it. -/
def resolveFilePath (dataDir : AbsPath) (dir appName relPath : String) :
    Except String AbsPath :=
  if ¬ matchesCheckPath relPath then Except.error ("Forbidden path " ++ relPath)
  else
    match getSecurePath dataDir dir appName with
    | Except.error e => Except.error e
    | Except.ok fd => Except.ok (joinSegs fd relPath)

/-! ### Versioned store (git.mjs: initGitIfNotExists, commitAllChanges) -/

/-- A file tree as an association list from path to content; the head entry
shadows later entries for the same path. -/
abbrev FsTree := List (String × String)

/-- The repository state of one tracked directory: whether the history
metadata exists, the tree recorded by the last commit, and the commit
messages newest first. -/
structure Repo where
  initialized : Bool
  headTree : FsTree
  commits : List String
deriving DecidableEq

/-- `initGitIfNotExists` of git.mjs on the repository state: create the
directory and the history metadata when absent; the call is idempotent. -/
def initGitIfNotExistsRepo (r : Repo) : Repo :=
  { r with initialized := true }

/-- The pending paths `git add . ; git status` reports: every path whose
content in the working tree differs from the content recorded at HEAD
(an addition, a modification or a deletion). -/
def changedPaths (work head : FsTree) : List String :=
  ((work.map Prod.fst) ++ (head.map Prod.fst)).dedup.filter
    (fun p => List.lookup p work ≠ List.lookup p head)

/-- `commitAllChanges(repoPath, {commitMessage})` of git.mjs: ensure the
repository, stage everything, and commit only when the status lists at least
one pending file. -/
def commitAllChanges (r : Repo) (work : FsTree) (msg : String) : Repo :=
  let r1 := initGitIfNotExistsRepo r
  if 0 < (changedPaths work r1.headTree).length then
    { r1 with headTree := work, commits := msg :: r1.commits }
  else r1

/-! ### History queries (git.mjs: getFileContentDiff) -/

/-- One commit of the history model: its hash, its parent hash when it has
one, and the full tree it records. -/
structure HCommit where
  hash : String
  parent : Option String
  tree : FsTree
deriving DecidableEq

/-- A repository history as the list of its commits. -/
abbrev HRepo := List HCommit

/-- Lookup of a commit by hash. -/
def findCommit (repo : HRepo) (h : String) : Option HCommit :=
  repo.find? (fun c => c.hash = h)

/-- `git rev-parse <hash>^`: the parent hash of a commit; the command exits
non-zero for an unknown hash and for a root commit, which has no parent. -/
def revParseParent (repo : HRepo) (h : String) : Except String String :=
  match findCommit repo h with
  | none => Except.error ("fatal: ambiguous argument " ++ h)
  | some c =>
    match c.parent with
    | some p => Except.ok p
    | none => Except.error ("fatal: bad revision " ++ h ++ "^")

/-- `git show <rev>:<file>`: the content of a file at a revision; the command
exits non-zero when the revision is unknown or the file is absent there. -/
def gitShow (repo : HRepo) (rev file : String) : Except String String :=
  match findCommit repo rev with
  | none => Except.error ("fatal: invalid object name " ++ rev)
  | some c =>
    match List.lookup file c.tree with
    | some content => Except.ok content
    | none => Except.error ("fatal: path " ++ file ++ " does not exist in " ++ rev)

/-- The value `getFileContentDiff` answers on success. -/
structure ContentDiff where
  before : String
  after : String
  wasDeleted : Bool
  wasCreated : Bool
deriving DecidableEq

/-- `getFileContentDiff(repoPath, commitHash, filePath)` of git.mjs: resolve
the parent revision first (a failure there reaches the outer catch, which
logs and rethrows the same error), then read each side under its own
try/catch whose handler substitutes the empty string. -/
def getFileContentDiff (repo : HRepo) (commitHash filePath : String) :
    Except String ContentDiff :=
  match revParseParent repo commitHash with
  | Except.error e => Except.error e
  | Except.ok parentHash =>
    let beforeContent :=
      match gitShow repo parentHash filePath with
      | Except.ok c => c
      | Except.error _ => ""
    let afterContent :=
      match gitShow repo commitHash filePath with
      | Except.ok c => c
      | Except.error _ => ""
    Except.ok { before := beforeContent, after := afterContent,
                wasDeleted := afterContent == "", wasCreated := beforeContent == "" }

/-! ### Branch manager (git.mjs: createBranchWithWorktree) -/

/-- One character of the branch-name allow-list `/^[a-zA-Z0-9-]+$/`. -/
def isBranchChar (c : Char) : Bool :=
  c.isAlpha || c.isDigit || c = '-'

/-- The test `newBranchName.match(/^[a-zA-Z0-9-]+$/)`. -/
def validBranchName (s : String) : Bool :=
  s.length > 0 && s.toList.all isBranchChar

/-- The filesystem and repository state `createBranchWithWorktree` acts on:
whether the main repository directory exists and is initialized, the set of
directories present on disk, and the `git worktree` invocations issued so
far (an event trace). -/
structure WorktreeFs where
  repoDirExists : Bool
  repoInitialized : Bool
  existingDirs : List AbsPath
  worktreeCmdsRun : List (List String)
deriving DecidableEq

/-- `initGitIfNotExists` on the worktree state: the main repository directory
is created when missing and the repository initialized when missing. -/
def initGitIfNotExistsFs (st : WorktreeFs) : WorktreeFs :=
  { st with repoDirExists := true, repoInitialized := true }

/-- Directory existence on the modelled disk. -/
def dirExists (st : WorktreeFs) (p : AbsPath) : Bool :=
  st.existingDirs.contains p

/-- A path rendered back to a slash-separated string. -/
def renderPath : AbsPath → String
  | [] => ""
  | [s] => s
  | s :: rest => s ++ "/" ++ renderPath rest

/-- The target-directory check of `createBranchWithWorktree`: the source runs
`await fs.stat(targetPath); throw new Error(...)` inside a `try` whose `catch`
swallows every error.  When the directory exists, `stat` succeeds and the
explicit throw fires; when it does not, `stat` throws `ENOENT`; either error
lands in the same `catch` block, so the check always falls through. -/
def statThenThrowCaught (targetExists : Bool) : Except String Unit :=
  let attempt : Except String Unit :=
    if targetExists then Except.error "Directory already exists"
    else Except.error "ENOENT: no such file or directory"
  match attempt with
  | Except.ok u => Except.ok u
  | Except.error _ => Except.ok ()

/-- The diagnostic `git worktree add` prints when the target path exists. -/
def worktreeAddFatal : String := "fatal: target path already exists"

/-- `createBranchWithWorktree(repoPath, newBranchName, branchesPath,
sourceBranch)` of git.mjs: ensure the main repository, validate the branch
name, run the swallowed target-directory check, then invoke
`git worktree add -b <name> <target> [<source>]` (the source branch is passed
only when it is non-empty and differs from `public`); every error is wrapped
as `Failed to create branch: <message>`.  The model has `git worktree add`
fail when the target directory already exists, as git does. -/
def createBranchWithWorktree (st : WorktreeFs) (newBranchName : String)
    (branchesPath : AbsPath) (sourceBranch : String) :
    Except String Unit × WorktreeFs :=
  let st1 := initGitIfNotExistsFs st
  if ¬ validBranchName newBranchName then
    (Except.error "Failed to create branch: Invalid branch name", st1)
  else
    let targetPath := branchesPath ++ [newBranchName]
    match statThenThrowCaught (dirExists st1 targetPath) with
    | Except.error e => (Except.error ("Failed to create branch: " ++ e), st1)
    | Except.ok _ =>
      let args := ["worktree", "add", "-b", newBranchName, renderPath targetPath] ++
        (if sourceBranch ≠ "" && sourceBranch ≠ "public" then [sourceBranch] else [])
      let st2 := { st1 with worktreeCmdsRun := st1.worktreeCmdsRun ++ [args] }
      if dirExists st1 targetPath then
        (Except.error ("Failed to create branch: " ++ worktreeAddFatal), st2)
      else
        (Except.ok (), { st2 with existingDirs := st2.existingDirs ++ [targetPath] })

/-! ### SSH sandbox manager (ssh.mjs: execSSH, createUser, addSSHKey,
testConnection) -/

/-- The outcome of running one remote command: the connection may fail, the
exec request may fail, and otherwise the command finishes with an exit code
and captured output streams. -/
structure ExecOutcome where
  connectFail : Option String
  execFail : Option String
  exitCode : Nat
  stdoutData : String
  stderrData : String
deriving DecidableEq

/-- The value the promise inside `execSSH` resolves with on exit code zero. -/
structure ExecResult where
  stdout : String
  stderr : String
deriving DecidableEq

/-- The promise built inside `execSSH`: reject on a connection error, reject
on an exec error, resolve `{stdout, stderr}` (both trimmed) on exit code
zero, and reject with the captured error text otherwise. -/
def execSSHPromise (o : ExecOutcome) : Except String ExecResult :=
  match o.connectFail with
  | some m => Except.error ("SSH connection failed: " ++ m)
  | none =>
    match o.execFail with
    | some m => Except.error m
    | none =>
      if o.exitCode = 0 then
        Except.ok { stdout := jsTrim o.stdoutData, stderr := jsTrim o.stderrData }
      else
        Except.error ("Command failed with code " ++ toString o.exitCode ++ ": " ++
          (if o.stderrData ≠ "" then o.stderrData else o.stdoutData))

/-- `execSSH(command)` of ssh.mjs: the function ends with `await promise;`
and has no return statement, so on success it resolves with JavaScript's
`undefined` (modelled `none`), discarding the captured output pair. -/
def execSSH (o : ExecOutcome) : Except String (Option ExecResult) :=
  match execSSHPromise o with
  | Except.ok _ => Except.ok none
  | Except.error e => Except.error e

/-- The destructuring `const { stdout } = x` of a possibly-undefined value:
destructuring `undefined` throws a TypeError. -/
def destructureStdout : Option ExecResult → Except String String
  | none => Except.error "TypeError: cannot destructure stdout of undefined"
  | some r => Except.ok r.stdout

/-- The value `testConnection` answers. -/
structure TCResult where
  success : Bool
  output : Option String
  error : Option String
deriving DecidableEq

/-- `testConnection()` of ssh.mjs: await `execSSH`, destructure `stdout` from
its result, and answer success with the output; any error caught on the way
(including the TypeError from destructuring `undefined`) answers failure. -/
def testConnection (o : ExecOutcome) : TCResult :=
  match execSSH o with
  | Except.error e => { success := false, output := none, error := some e }
  | Except.ok u =>
    match destructureStdout u with
    | Except.error e => { success := false, output := none, error := some e }
    | Except.ok s => { success := true, output := some s, error := none }

/-- One account of the SSH container's user database. -/
structure SshUser where
  name : String
  password : String
deriving DecidableEq

/-- The state of the SSH container: whether the admin channel can reach it,
and its user database. -/
structure SandboxState where
  accessible : Bool
  users : List SshUser
deriving DecidableEq

/-- The connection info `createUser` answers; the password field is absent
when the account already existed. -/
structure ConnInfo where
  username : String
  password : Option String
  port : Nat
deriving DecidableEq

/-- `userExists(userId)` of ssh.mjs: probe the account with `id <name>`; a
non-zero exit is a normal false. -/
def userExists (st : SandboxState) (userId : String) : Bool :=
  st.users.any (fun u => u.name = userId)

/-- `createUser(userId, password)` of ssh.mjs: fail when the container is not
accessible; answer the existing account's name and port (no password) when it
already exists; otherwise create the account with the supplied or generated
password and answer name, password and port.  The generated password is
random in the source and passed here as an explicit argument. -/
def createUser (sshPort : Nat) (st : SandboxState) (userId : String)
    (password : Option String) (generatedPassword : String) :
    Except String (ConnInfo × SandboxState) :=
  if ¬ st.accessible then Except.error "SSH container is not accessible"
  else if userExists st userId then
    Except.ok ({ username := userId, password := none, port := sshPort }, st)
  else
    let userPassword := password.getD generatedPassword
    Except.ok ({ username := userId, password := some userPassword, port := sshPort },
      { st with users := st.users ++ [{ name := userId, password := userPassword }] })

/-- The authorized-key file of one account after `addSSHKey`. -/
structure AuthKeysFile where
  content : String
  owner : String
  group : String
  mode : Nat
deriving DecidableEq

/-- The effect of the shell fragment `echo "ARG" >> file`: POSIX `echo`
writes its argument followed by one newline of its own.  The
`.replace(/"/g, '\\"')` escaping of the source reproduces the argument text
verbatim for key text free of other shell metacharacters, so the argument
equals the JavaScript string placed between the quotes. -/
def echoAppend (arg content : String) : String :=
  content ++ arg ++ "\n"

/-- `addSSHKey(userId, publicKey)` of ssh.mjs: fail when the account does not
exist; otherwise run, over the admin channel, `touch` on the authorized-key
file (creating it empty when absent), `echo "<trimmed key + newline>" >>`
onto it, `chown user:user` and `chmod 600`.  `priorContent` is the file's
content before the call, `none` when the file did not exist. -/
def addSSHKey (userPresent : Bool) (priorContent : Option String)
    (userId publicKey : String) : Except String AuthKeysFile :=
  if ¬ userPresent then
    Except.error ("User " ++ userId ++ " does not exist")
  else
    let keyContent := jsTrim publicKey ++ "\n"
    let afterTouch := priorContent.getD ""
    let afterEcho := echoAppend keyContent afterTouch
    Except.ok { content := afterEcho, owner := userId, group := userId, mode := 600 }

/-! ### File routes (file-api.mjs: save route, delete route, onFileChange)

The route models fix one tenant and one branch scope: files are keyed by
their route-relative path, and the commit helper receives the whole scope
tree as its working tree.  Path resolution across tenants and branches is
modelled separately by `resolveFilePath`; the directory-creation and `stat`
steps of the routes carry no weight in the claims and are left out. -/

/-- The notification passed to registered change listeners. -/
structure ChangeEvt where
  appName : String
  relativePath : String
  previousContent : Option String
  newContent : Option String
  changeType : String

/-- A registered change listener; an `error` result models a thrown
exception. -/
abbrev ChangeListener := ChangeEvt → Except String Unit

/-- `onFileChange` of file-api.mjs: invoke every registered listener in
order.  The loop body has no try/catch, so the first listener that throws
aborts the loop and the exception propagates to the caller. -/
def onFileChange (listeners : List ChangeListener) (e : ChangeEvt) :
    Except String Unit :=
  match listeners with
  | [] => Except.ok ()
  | l :: rest =>
    match l e with
    | Except.ok _ => onFileChange rest e
    | Except.error err => Except.error err

/-- The outcome a route reports: a success body, the silent return after the
access middleware already responded, or an HTTP error status with its body. -/
inductive RouteResult
  | success
  | denied
  | httpError (code : Nat) (msg : String)
deriving DecidableEq

/-- The per-scope state a file route acts on. -/
structure AppState where
  files : FsTree
  repo : Repo
deriving DecidableEq

/-- Writing one file: the new association shadows and replaces any previous
entry for the path. -/
def setFile (t : FsTree) (p c : String) : FsTree :=
  (p, c) :: t.filter (fun kv => kv.1 ≠ p)

/-- Removing one file. -/
def removeFile (t : FsTree) (p : String) : FsTree :=
  t.filter (fun kv => kv.1 ≠ p)

/-- `POST /files/:appName/save` of file-api.mjs after multer decoding:
missing-path check, allow-list check, access check, read of the previous
content (a missing file is swallowed), write, commit (default message
`Save file <path>`), then the change notification.  A listener exception
reaches the route's catch, which answers HTTP 500
`Error writing file <path>`; the write and the commit have already happened
and are not undone. -/
def saveFileRoute (listeners : List ChangeListener) (allowed : Bool)
    (st : AppState) (appName relPath buf : String)
    (commitMessage : Option String) : RouteResult × AppState :=
  if relPath = "" then (RouteResult.httpError 400 "Missing path", st)
  else if ¬ matchesCheckPath relPath then
    (RouteResult.httpError 500 ("Forbidden path " ++ relPath), st)
  else if ¬ allowed then (RouteResult.denied, st)
  else
    let previousContent := List.lookup relPath st.files
    let newFiles := setFile st.files relPath buf
    let newRepo := commitAllChanges st.repo newFiles
      (commitMessage.getD ("Save file " ++ relPath))
    let st1 : AppState := { files := newFiles, repo := newRepo }
    match onFileChange listeners
        { appName := appName, relativePath := relPath,
          previousContent := previousContent, newContent := some buf,
          changeType := "save" } with
    | Except.ok _ => (RouteResult.success, st1)
    | Except.error _ =>
      (RouteResult.httpError 500 ("Error writing file " ++ relPath), st1)

/-- The observable steps of the delete route, in the order they run. -/
inductive FileEv
  | readAttempt (p : String)
  | accessCheck
  | unlinked (p : String)
deriving DecidableEq

/-- `GET /files/:appName/delete` of file-api.mjs: missing-path check,
allow-list check, then — inside the try block — the read of the file's
previous content, the access check, the unlink, the commit
(`Delete file <path>`) and the change notification.  The event trace records
each tenant-data access and the access check as they happen. -/
def deleteFileRoute (listeners : List ChangeListener) (allowed : Bool)
    (st : AppState) (appName qpath : String) :
    RouteResult × AppState × List FileEv :=
  if qpath = "" then (RouteResult.httpError 400 "Missing path", st, [])
  else if ¬ matchesCheckPath qpath then
    (RouteResult.httpError 500 ("Forbidden path " ++ qpath), st, [])
  else
    let ev1 := [FileEv.readAttempt qpath]
    match List.lookup qpath st.files with
    | none => (RouteResult.httpError 500 ("Error reading file " ++ qpath), st, ev1)
    | some previousContent =>
      let ev2 := ev1 ++ [FileEv.accessCheck]
      if ¬ allowed then (RouteResult.denied, st, ev2)
      else
        let ev3 := ev2 ++ [FileEv.unlinked qpath]
        let newFiles := removeFile st.files qpath
        let newRepo := commitAllChanges st.repo newFiles ("Delete file " ++ qpath)
        let st1 : AppState := { files := newFiles, repo := newRepo }
        match onFileChange listeners
            { appName := appName, relativePath := qpath,
              previousContent := some previousContent, newContent := none,
              changeType := "delete" } with
        | Except.ok _ => (RouteResult.success, st1, ev3)
        | Except.error _ =>
          (RouteResult.httpError 500 ("Error reading file " ++ qpath), st1, ev3)

/-! ### Helper lemmas -/

/-- A working tree compared against itself has no pending path. -/
theorem changedPaths_self (w : FsTree) : changedPaths w w = [] := by
  simp [changedPaths]

/-- Looking a path up after writing it finds the written content. -/
theorem lookup_setFile (t : FsTree) (p c : String) :
    List.lookup p (setFile t p c) = some c := by
  simp [setFile, List.lookup]

/-! ### Claim theorems -/

/-- Claim C1, evaluated at a failing input: the relative path
`../../victim/secret.txt` matches `REGEXP_CHECK_PATH` (the allow-list admits
dots and slashes) and contains a parent-directory segment, yet the route
resolution succeeds without any `InvalidPath` failure — the `..` test of
`getSecurePath` inspects only the branch selector — and the resolved path
lies outside tenant `acme`'s root, under another tenant. -/
theorem c1_path_guard_escape :
    matchesCheckPath "../../victim/secret.txt" = true ∧
    containsDotDot "../../victim/secret.txt" = true ∧
    resolveFilePath ["data"] "public" "acme" "../../victim/secret.txt" =
      Except.ok ["data", "apps", "victim", "secret.txt"] ∧
    List.isPrefixOf (tenantRoot ["data"] "acme")
      ["data", "apps", "victim", "secret.txt"] = false := by
  decide

/-- Claim C2, evaluated at a failing input: the target-directory check of
`createBranchWithWorktree` throws inside its own `try`, whose `catch`
swallows the error, so the check answers ok whether or not the directory
exists; with the target directory already on disk the function still issues
`git worktree add`, and the failure the caller sees is git's own, not the
`Directory already exists` error of the check. -/
theorem c2_branch_exists_check_dead :
    statThenThrowCaught true = Except.ok () ∧
    statThenThrowCaught false = Except.ok () ∧
    createBranchWithWorktree
      { repoDirExists := true, repoInitialized := true,
        existingDirs := [["data", "apps", "acme", "branches", "feat"]],
        worktreeCmdsRun := [] }
      "feat" ["data", "apps", "acme", "branches"] "main" =
      (Except.error ("Failed to create branch: " ++ worktreeAddFatal),
       { repoDirExists := true, repoInitialized := true,
         existingDirs := [["data", "apps", "acme", "branches", "feat"]],
         worktreeCmdsRun := [["worktree", "add", "-b", "feat",
           "data/apps/acme/branches/feat", "main"]] }) := by
  decide

/-- Claim C3 as stated is false on the code: with the write and the commit
succeeded, a listener that throws during notification makes the save route
answer HTTP 500 `Error writing file a.txt` instead of success, even though
the state holds the written file and the new commit. -/
theorem c3_listener_throw_counterexample :
    (saveFileRoute [fun _ => Except.error "listener failure"] true
        { files := [], repo := { initialized := false, headTree := [], commits := [] } }
        "acme" "a.txt" "hello" none).1 ≠ RouteResult.success ∧
    (saveFileRoute [fun _ => Except.error "listener failure"] true
        { files := [], repo := { initialized := false, headTree := [], commits := [] } }
        "acme" "a.txt" "hello" none) =
      (RouteResult.httpError 500 "Error writing file a.txt",
       { files := [("a.txt", "hello")],
         repo := { initialized := true, headTree := [("a.txt", "hello")],
                   commits := ["Save file a.txt"] } }) := by
  decide

/-- Claim C3 amended: when the filesystem write and the commit succeed and a
registered listener throws during notification, the caller observes an HTTP
500 error rather than success — `onFileChange` has no try/catch, so the
exception reaches the route's handler — while the already-completed mutation
is not rolled back: the saved content and the commit remain in the final
state. -/
theorem c3_listener_throw_reports_error_without_rollback
    (listeners : List ChangeListener) (st : AppState)
    (appName relPath buf : String) (cm : Option String) (err : String)
    (hne : relPath ≠ "") (hok : matchesCheckPath relPath = true)
    (herr : onFileChange listeners
      { appName := appName, relativePath := relPath,
        previousContent := List.lookup relPath st.files, newContent := some buf,
        changeType := "save" } = Except.error err) :
    (saveFileRoute listeners true st appName relPath buf cm).1 =
      RouteResult.httpError 500 ("Error writing file " ++ relPath) ∧
    List.lookup relPath (saveFileRoute listeners true st appName relPath buf cm).2.files =
      some buf ∧
    (saveFileRoute listeners true st appName relPath buf cm).2.repo =
      commitAllChanges st.repo (setFile st.files relPath buf)
        (cm.getD ("Save file " ++ relPath)) := by
  simp [saveFileRoute, hne, hok, herr, lookup_setFile]

/-- Claim C3 witness: the amended theorem at a concrete state with one
throwing listener. -/
theorem c3_listener_throw_witness :
    (saveFileRoute [fun _ => Except.error "boom"] true
        { files := [("a.txt", "old")],
          repo := { initialized := true, headTree := [("a.txt", "old")], commits := ["c0"] } }
        "acme" "a.txt" "new" none).1 =
      RouteResult.httpError 500 ("Error writing file " ++ "a.txt") ∧
    List.lookup "a.txt"
      (saveFileRoute [fun _ => Except.error "boom"] true
        { files := [("a.txt", "old")],
          repo := { initialized := true, headTree := [("a.txt", "old")], commits := ["c0"] } }
        "acme" "a.txt" "new" none).2.files = some "new" ∧
    (saveFileRoute [fun _ => Except.error "boom"] true
        { files := [("a.txt", "old")],
          repo := { initialized := true, headTree := [("a.txt", "old")], commits := ["c0"] } }
        "acme" "a.txt" "new" none).2.repo =
      commitAllChanges { initialized := true, headTree := [("a.txt", "old")], commits := ["c0"] }
        (setFile [("a.txt", "old")] "a.txt" "new") (Option.getD none ("Save file " ++ "a.txt")) :=
  c3_listener_throw_reports_error_without_rollback [fun _ => Except.error "boom"]
    { files := [("a.txt", "old")],
      repo := { initialized := true, headTree := [("a.txt", "old")], commits := ["c0"] } }
    "acme" "a.txt" "new" none "boom" (by decide) (by decide) rfl

/-- Claim C4: `commitAllChanges` creates no commit when the staged status
lists no pending file, creates exactly one commit carrying the given message
otherwise, and running it twice with the same working tree adds exactly one
commit, not two. -/
theorem c4_commitAllChanges_no_empty_commit (r : Repo) (work : FsTree)
    (m1 m2 : String) :
    (changedPaths work r.headTree = [] →
      (commitAllChanges r work m1).commits = r.commits) ∧
    (changedPaths work r.headTree ≠ [] →
      (commitAllChanges r work m1).commits = m1 :: r.commits) ∧
    (commitAllChanges (commitAllChanges r work m1) work m2).commits =
      (commitAllChanges r work m1).commits := by
  refine ⟨?_, ?_, ?_⟩
  · intro h
    simp [commitAllChanges, initGitIfNotExistsRepo, h]
  · intro h
    have hl : 0 < (changedPaths work r.headTree).length := List.length_pos.mpr h
    simp [commitAllChanges, initGitIfNotExistsRepo, hl]
  · by_cases h : changedPaths work r.headTree = []
    · simp [commitAllChanges, initGitIfNotExistsRepo, h]
    · have hl : 0 < (changedPaths work r.headTree).length := List.length_pos.mpr h
      simp [commitAllChanges, initGitIfNotExistsRepo, hl, changedPaths_self]

/-- Claim C4 witness: a first save of `a.txt` commits once, and repeating the
identical save creates no second commit. -/
theorem c4_commitAllChanges_witness :
    changedPaths [("a.txt", "hi")]
      ({ initialized := false, headTree := [], commits := [] } : Repo).headTree ≠ [] ∧
    (commitAllChanges { initialized := false, headTree := [], commits := [] }
      [("a.txt", "hi")] "Save file a.txt").commits = "Save file a.txt" ::
        ({ initialized := false, headTree := [], commits := [] } : Repo).commits ∧
    (commitAllChanges
        (commitAllChanges { initialized := false, headTree := [], commits := [] }
          [("a.txt", "hi")] "Save file a.txt")
        [("a.txt", "hi")] "Save file a.txt").commits =
      (commitAllChanges { initialized := false, headTree := [], commits := [] }
        [("a.txt", "hi")] "Save file a.txt").commits :=
  ⟨by decide,
   (c4_commitAllChanges_no_empty_commit
     { initialized := false, headTree := [], commits := [] }
     [("a.txt", "hi")] "Save file a.txt" "Save file a.txt").2.1 (by decide),
   (c4_commitAllChanges_no_empty_commit
     { initialized := false, headTree := [], commits := [] }
     [("a.txt", "hi")] "Save file a.txt" "Save file a.txt").2.2⟩

/-- Claim C5 as stated is false on the code: on a root commit, which has no
parent, `git rev-parse <hash>^` fails outside the per-side try/catch blocks,
so `getFileContentDiff` propagates the error instead of answering empty
before-content. -/
theorem c5_root_commit_counterexample :
    getFileContentDiff [{ hash := "r0", parent := none, tree := [("f.txt", "v1")] }]
      "r0" "f.txt" = Except.error ("fatal: bad revision " ++ "r0" ++ "^") := by
  decide

/-- Claim C5 amended: when the commit's parent revision resolves, the query
never fails: each side falls back to the empty string exactly when the file
is absent at that revision (absent in the parent tree means empty before,
absent in the commit's tree means empty after), and carries the stored
content otherwise. -/
theorem c5_fileBeforeAfter_soft_absence (repo : HRepo) (h f ph : String)
    (ch cp : HCommit)
    (hp : revParseParent repo h = Except.ok ph)
    (hch : findCommit repo h = some ch)
    (hcp : findCommit repo ph = some cp) :
    getFileContentDiff repo h f =
      Except.ok
        { before := (List.lookup f cp.tree).getD "",
          after := (List.lookup f ch.tree).getD "",
          wasDeleted := (List.lookup f ch.tree).getD "" == "",
          wasCreated := (List.lookup f cp.tree).getD "" == "" } := by
  simp only [getFileContentDiff, gitShow, hp, hch, hcp]
  cases hb : List.lookup f cp.tree <;> cases ha : List.lookup f ch.tree <;>
    simp [hb, ha]

/-- Claim C5 witness: in a two-commit history, the file created by the child
commit has empty before-content, without error. -/
theorem c5_fileBeforeAfter_witness :
    getFileContentDiff
      [{ hash := "h1", parent := none, tree := [("a", "1")] },
       { hash := "h2", parent := some "h1", tree := [("b", "2")] }] "h2" "b" =
      Except.ok
        { before := (List.lookup "b" [("a", "1")]).getD "",
          after := (List.lookup "b" [("b", "2")]).getD "",
          wasDeleted := (List.lookup "b" [("b", "2")]).getD "" == "",
          wasCreated := (List.lookup "b" [("a", "1")]).getD "" == "" } :=
  c5_fileBeforeAfter_soft_absence
    [{ hash := "h1", parent := none, tree := [("a", "1")] },
     { hash := "h2", parent := some "h1", tree := [("b", "2")] }]
    "h2" "b" "h1"
    { hash := "h2", parent := some "h1", tree := [("b", "2")] }
    { hash := "h1", parent := none, tree := [("a", "1")] }
    (by decide) (by decide) (by decide)

/-- Claim C6: after any successful `createUser` call, a second call for the
same tenant answers the same account name and the same port, carries no
password, creates no duplicate account and resets no password — the container
state is returned unchanged. -/
theorem c6_createUser_idempotent (sshPort : Nat) (st : SandboxState)
    (uid : String) (pw : Option String) (g1 g2 : String) (i1 : ConnInfo)
    (st1 : SandboxState)
    (hacc : st.accessible = true)
    (h1 : createUser sshPort st uid pw g1 = Except.ok (i1, st1)) :
    createUser sshPort st1 uid none g2 =
      Except.ok ({ username := i1.username, password := none, port := i1.port }, st1) := by
  by_cases hex : userExists st uid
  · simp [createUser, hacc, hex] at h1
    obtain ⟨hi, hst⟩ := h1
    subst hst
    simp [createUser, hacc, hex, ← hi]
  · simp [createUser, hacc, hex] at h1
    obtain ⟨hi, hst⟩ := h1
    have hex2 : userExists st1 uid = true := by
      subst hst
      simp [userExists, List.any_append]
    have hacc2 : st1.accessible = true := by
      subst hst
      rfl
    simp [createUser, hacc2, hex2, ← hi]

/-- Claim C6 witness: provisioning `acme` again after it was created answers
name `acme` and port 22 with no password, leaving the user database as it
was. -/
theorem c6_createUser_idempotent_witness :
    createUser 22 { accessible := true, users := [{ name := "acme", password := "p1" }] }
      "acme" none "p2" =
      Except.ok
        ({ username := "acme", password := none, port := 22 },
         { accessible := true, users := [{ name := "acme", password := "p1" }] }) :=
  c6_createUser_idempotent 22 { accessible := true, users := [] } "acme" none "p1" "p2"
    { username := "acme", password := some "p1", port := 22 }
    { accessible := true, users := [{ name := "acme", password := "p1" }] }
    (by decide) (by decide)

/-- Claim C7, evaluated at a failing input: the delete route reads the
file's previous content before invoking the access check — the event trace
of a denied request on an existing file records the read first — so a denied
request has already observed tenant file content. -/
theorem c7_delete_reads_before_access_check :
    deleteFileRoute [] false
      { files := [("a.txt", "secret")],
        repo := { initialized := true, headTree := [("a.txt", "secret")],
                  commits := ["c0"] } }
      "acme" "a.txt" =
      (RouteResult.denied,
       { files := [("a.txt", "secret")],
         repo := { initialized := true, headTree := [("a.txt", "secret")],
                   commits := ["c0"] } },
       [FileEv.readAttempt "a.txt", FileEv.accessCheck]) := by
  decide

/-- Claim C8 as stated is false on the code: with an invalid branch name the
call does fail, but only after `initGitIfNotExists` has run — starting from a
state with no repository, the failed call leaves the main repository
directory created and the repository initialized. -/
theorem c8_invalid_name_initializes_repo :
    createBranchWithWorktree
      { repoDirExists := false, repoInitialized := false, existingDirs := [],
        worktreeCmdsRun := [] }
      "bad name!" ["data", "apps", "acme", "branches"] "public" =
      (Except.error "Failed to create branch: Invalid branch name",
       { repoDirExists := true, repoInitialized := true, existingDirs := [],
         worktreeCmdsRun := [] }) := by
  decide

/-- Claim C8 amended: a `createBranch` call whose name fails the allow-list
pattern fails with the invalid-branch-name error, issues no worktree command
and creates no branch directory — but only after the main repository has been
ensured, so the repository directory may be created and initialized as a side
effect. -/
theorem c8_invalid_name_no_worktree (st : WorktreeFs) (nm : String)
    (bp : AbsPath) (src : String) (hinv : validBranchName nm = false) :
    createBranchWithWorktree st nm bp src =
      (Except.error "Failed to create branch: Invalid branch name",
       initGitIfNotExistsFs st) ∧
    (initGitIfNotExistsFs st).worktreeCmdsRun = st.worktreeCmdsRun ∧
    (initGitIfNotExistsFs st).existingDirs = st.existingDirs := by
  simp [createBranchWithWorktree, hinv, initGitIfNotExistsFs]

/-- Claim C8 witness: the amended theorem at a concrete state and the
invalid name `feat one`. -/
theorem c8_invalid_name_witness :
    createBranchWithWorktree
      { repoDirExists := true, repoInitialized := true,
        existingDirs := [["d", "apps", "acme", "branches", "x"]], worktreeCmdsRun := [] }
      "feat one" ["d", "apps", "acme", "branches"] "public" =
      (Except.error "Failed to create branch: Invalid branch name",
       initGitIfNotExistsFs
        { repoDirExists := true, repoInitialized := true,
          existingDirs := [["d", "apps", "acme", "branches", "x"]], worktreeCmdsRun := [] }) ∧
    (initGitIfNotExistsFs
        { repoDirExists := true, repoInitialized := true,
          existingDirs := [["d", "apps", "acme", "branches", "x"]],
          worktreeCmdsRun := [] }).worktreeCmdsRun =
      ({ repoDirExists := true, repoInitialized := true,
         existingDirs := [["d", "apps", "acme", "branches", "x"]],
         worktreeCmdsRun := [] } : WorktreeFs).worktreeCmdsRun ∧
    (initGitIfNotExistsFs
        { repoDirExists := true, repoInitialized := true,
          existingDirs := [["d", "apps", "acme", "branches", "x"]],
          worktreeCmdsRun := [] }).existingDirs =
      ({ repoDirExists := true, repoInitialized := true,
         existingDirs := [["d", "apps", "acme", "branches", "x"]],
         worktreeCmdsRun := [] } : WorktreeFs).existingDirs :=
  c8_invalid_name_no_worktree
    { repoDirExists := true, repoInitialized := true,
      existingDirs := [["d", "apps", "acme", "branches", "x"]], worktreeCmdsRun := [] }
    "feat one" ["d", "apps", "acme", "branches"] "public" (by decide)

/-- Claim C9 as stated is false on the code: the shell `echo` adds its own
newline after the argument, which already ends in one, so the appended entry
is the trimmed key followed by two newlines, not one. -/
theorem c9_single_newline_counterexample :
    addSSHKey true (some "") "acme" "ssh-ed25519 AAAA user@host" ≠
      Except.ok { content := "ssh-ed25519 AAAA user@host\n", owner := "acme",
                  group := "acme", mode := 600 } ∧
    addSSHKey true (some "") "acme" "ssh-ed25519 AAAA user@host" =
      Except.ok { content := "ssh-ed25519 AAAA user@host\n\n", owner := "acme",
                  group := "acme", mode := 600 } := by
  decide

/-- Claim C9 amended: for an existing account, `addSSHKey` appends the
trimmed key followed by a newline plus a second newline contributed by
`echo` (a trailing blank line) to the prior content of the authorized-key
file, which ends up owned by the account with mode 600. -/
theorem c9_addSSHKey_appends_trimmed_key (prior uid k : String) :
    addSSHKey true (some prior) uid k =
      Except.ok { content := prior ++ (jsTrim k ++ "\n") ++ "\n",
                  owner := uid, group := uid, mode := 600 } := by
  simp [addSSHKey, echoAppend]

/-- Claim C10: `execSSH` resolves to `undefined` rather than the captured
output pair whenever the remote command exits with status zero, and
`testConnection`, which destructures `stdout` from that result, never
answers success. -/
theorem c10_execSSH_undefined_testConnection_fails (o : ExecOutcome) :
    (o.connectFail = none → o.execFail = none → o.exitCode = 0 →
      execSSH o = Except.ok none) ∧
    (testConnection o).success = false := by
  constructor
  · intro h1 h2 h3
    simp [execSSH, execSSHPromise, h1, h2, h3]
  · cases hq : execSSHPromise o with
    | error e => simp [testConnection, execSSH, hq]
    | ok r => simp [testConnection, execSSH, hq, destructureStdout]

/-- Claim C10 witness: a remote command that exits 0 with output resolves to
`undefined`, and `testConnection` on it answers failure. -/
theorem c10_execSSH_witness :
    execSSH { connectFail := none, execFail := none, exitCode := 0,
              stdoutData := "bamz-ssh", stderrData := "" } = Except.ok none ∧
    (testConnection { connectFail := none, execFail := none, exitCode := 0,
                      stdoutData := "bamz-ssh", stderrData := "" }).success = false :=
  ⟨(c10_execSSH_undefined_testConnection_fails
      { connectFail := none, execFail := none, exitCode := 0,
        stdoutData := "bamz-ssh", stderrData := "" }).1 rfl rfl rfl,
   (c10_execSSH_undefined_testConnection_fails
      { connectFail := none, execFail := none, exitCode := 0,
        stdoutData := "bamz-ssh", stderrData := "" }).2⟩

end OpenBamz
